import Mathlib

/-!
Shallow embedding of `mip/protection/protection_engine.h` (package
Microsoft.InformationProtection.Protection 1.8.97).

The header declares the abstract class `ProtectionEngine` together with its
nested `Settings` value class (inline constructors, getters and setters) and
its nested `Observer` callback interface (virtual methods with inline no-op
default bodies).  The `ProtectionEngine` operations themselves are pure
virtual with no bodies.

The executable parts of the header (the `Settings` constructors and
accessors, the `Observer` default callback bodies) are embedded as Lean
functions below.  Types that the header only forward-references
(`mip::Identity`, `mip::Cloud`, `mip::AuthDelegate`, `TemplateDescriptor`,
`DelegationLicense`, `std::exception_ptr`, `std::shared_ptr<void>`) are
modelled minimally, and the asynchronous completion dispatch — whose
implementation lives in a closed pre-built component — is modelled from the
spec's contract.
-/

/-- Modelled from the spec: `mip::Identity` (declared in `mip/common_types.h`,
which is not part of the supplied source).  The spec uses it only as a value
associated with the engine; modelled as a record carrying the user's email,
with default construction yielding the empty string. -/
structure Identity where
  email : String := ""
deriving DecidableEq, Inhabited

/-- Modelled from the spec: `mip::Cloud` (declared outside the supplied
header).  `Unknown` and `Custom` are the members the header references:
`mCloud = Cloud::Unknown` is the default member initializer, and the
cloud-endpoint setter documents `Cloud = Custom`. -/
inductive Cloud where
  | Unknown : Cloud
  | Custom : Cloud
deriving DecidableEq, Inhabited

/-- Modelled from the spec: `std::shared_ptr<AuthDelegate>` (`AuthDelegate`
is declared in `mip/common_types.h`, not supplied).  A shared pointer is
modelled as an abstract address, `none` standing for a null pointer. -/
abbrev AuthDelegatePtr := Option Nat

/-- Embedding of `ProtectionEngine::Settings` (header lines 234-462): the
private members `mEngineId`, `mIdentity`, `mCloud`, `mAuthDelegate`,
`mClientData`, `mCustomSettings`, `mCloudEndpointBaseUrl`, `mLocale`,
`mSessionId`, `mUnderlyingApplicationId`, `mAllowCloudServiceOnly`. -/
structure Settings where
  mEngineId : String
  mIdentity : Identity
  mCloud : Cloud
  mAuthDelegate : AuthDelegatePtr
  mClientData : String
  mCustomSettings : List (String × String)
  mCloudEndpointBaseUrl : String
  mLocale : String
  mSessionId : String
  mUnderlyingApplicationId : String
  mAllowCloudServiceOnly : Bool
deriving DecidableEq

/-- Embedding of the `Settings` constructor for creating a new engine
(header lines 247-257): initializes `mIdentity`, `mAuthDelegate`,
`mClientData`, `mLocale` and `mAllowCloudServiceOnly(false)`; the remaining
members are default-constructed (`mCloud` by its member initializer
`Cloud::Unknown`, the strings and the vector empty). -/
def Settings.mkWithIdentity (identity : Identity) (authDelegate : AuthDelegatePtr)
    (clientData : String) (locale : String) : Settings :=
  { mEngineId := ""
    mIdentity := identity
    mCloud := Cloud.Unknown
    mAuthDelegate := authDelegate
    mClientData := clientData
    mCustomSettings := []
    mCloudEndpointBaseUrl := ""
    mLocale := locale
    mSessionId := ""
    mUnderlyingApplicationId := ""
    mAllowCloudServiceOnly := false }

/-- The same constructor called with the `locale` argument omitted: the
declaration gives the default argument `locale = "en-US"`. -/
def Settings.mkWithIdentityDefaultLocale (identity : Identity)
    (authDelegate : AuthDelegatePtr) (clientData : String) : Settings :=
  Settings.mkWithIdentity identity authDelegate clientData "en-US"

/-- Embedding of the `Settings` constructor for loading an existing engine
(header lines 270-280): initializes `mEngineId`, `mAuthDelegate`,
`mClientData`, `mLocale` and `mAllowCloudServiceOnly(false)`; the remaining
members are default-constructed (`mIdentity` by `Identity`'s default
constructor, `mCloud` by its member initializer `Cloud::Unknown`). -/
def Settings.mkWithEngineId (engineId : String) (authDelegate : AuthDelegatePtr)
    (clientData : String) (locale : String) : Settings :=
  { mEngineId := engineId
    mIdentity := {}
    mCloud := Cloud.Unknown
    mAuthDelegate := authDelegate
    mClientData := clientData
    mCustomSettings := []
    mCloudEndpointBaseUrl := ""
    mLocale := locale
    mSessionId := ""
    mUnderlyingApplicationId := ""
    mAllowCloudServiceOnly := false }

/-- The same constructor called with the `locale` argument omitted: the
declaration gives the default argument `locale = "en-US"`. -/
def Settings.mkWithEngineIdDefaultLocale (engineId : String)
    (authDelegate : AuthDelegatePtr) (clientData : String) : Settings :=
  Settings.mkWithEngineId engineId authDelegate clientData "en-US"

/-- `GetEngineId` (header line 287): `return mEngineId;` -/
def Settings.GetEngineId (s : Settings) : String := s.mEngineId

/-- `SetEngineId` (header line 294): `mEngineId = engineId;` -/
def Settings.SetEngineId (s : Settings) (engineId : String) : Settings :=
  { s with mEngineId := engineId }

/-- `GetIdentity` (header line 301): `return mIdentity;` -/
def Settings.GetIdentity (s : Settings) : Identity := s.mIdentity

/-- `SetIdentity` (header line 308): `mIdentity = identity;` -/
def Settings.SetIdentity (s : Settings) (identity : Identity) : Settings :=
  { s with mIdentity := identity }

/-- `GetClientData` (header line 315): `return mClientData;` -/
def Settings.GetClientData (s : Settings) : String := s.mClientData

/-- `SetClientData` (header line 322): `mClientData = clientData;` -/
def Settings.SetClientData (s : Settings) (clientData : String) : Settings :=
  { s with mClientData := clientData }

/-- `GetLocale` (header line 329): `return mLocale;` (the header declares no
locale setter). -/
def Settings.GetLocale (s : Settings) : String := s.mLocale

/-- `SetCustomSettings` (header line 336): `mCustomSettings = value;` -/
def Settings.SetCustomSettings (s : Settings) (value : List (String × String)) : Settings :=
  { s with mCustomSettings := value }

/-- `GetCustomSettings` (header line 343): `return mCustomSettings;` -/
def Settings.GetCustomSettings (s : Settings) : List (String × String) := s.mCustomSettings

/-- `SetSessionId` (header lines 350-352): `mSessionId = sessionId;` -/
def Settings.SetSessionId (s : Settings) (sessionId : String) : Settings :=
  { s with mSessionId := sessionId }

/-- `GetSessionId` (header lines 359-361): `return mSessionId;` -/
def Settings.GetSessionId (s : Settings) : String := s.mSessionId

/-- `SetCloud` (header lines 371-373): `mCloud = cloud;` -/
def Settings.SetCloud (s : Settings) (cloud : Cloud) : Settings :=
  { s with mCloud := cloud }

/-- `GetCloud` (header lines 380-382): `return mCloud;` -/
def Settings.GetCloud (s : Settings) : Cloud := s.mCloud

/-- `SetCloudEndpointBaseUrl` (header lines 391-393):
`mCloudEndpointBaseUrl = cloudEndpointBaseUrl;` -/
def Settings.SetCloudEndpointBaseUrl (s : Settings) (cloudEndpointBaseUrl : String) : Settings :=
  { s with mCloudEndpointBaseUrl := cloudEndpointBaseUrl }

/-- `GetCloudEndpointBaseUrl` (header lines 400-402):
`return mCloudEndpointBaseUrl;` -/
def Settings.GetCloudEndpointBaseUrl (s : Settings) : String := s.mCloudEndpointBaseUrl

/-- `SetAuthDelegate` (header lines 409-411): `mAuthDelegate = authDelegate;` -/
def Settings.SetAuthDelegate (s : Settings) (authDelegate : AuthDelegatePtr) : Settings :=
  { s with mAuthDelegate := authDelegate }

/-- `GetAuthDelegate` (header line 418): `return mAuthDelegate;` -/
def Settings.GetAuthDelegate (s : Settings) : AuthDelegatePtr := s.mAuthDelegate

/-- `GetUnderlyingApplicationId` (header line 425):
`return mUnderlyingApplicationId;` -/
def Settings.GetUnderlyingApplicationId (s : Settings) : String := s.mUnderlyingApplicationId

/-- `SetUnderlyingApplicationId` (header line 432):
`mUnderlyingApplicationId = underlyingApplicationId;` -/
def Settings.SetUnderlyingApplicationId (s : Settings) (underlyingApplicationId : String) : Settings :=
  { s with mUnderlyingApplicationId := underlyingApplicationId }

/-- `GetAllowCloudServiceOnly` (header line 439): `return mAllowCloudServiceOnly;` -/
def Settings.GetAllowCloudServiceOnly (s : Settings) : Bool := s.mAllowCloudServiceOnly

/-- `SetAllowCloudServiceOnly` (header line 446):
`mAllowCloudServiceOnly = allowCloudServiceOnly;` -/
def Settings.SetAllowCloudServiceOnly (s : Settings) (allowCloudServiceOnly : Bool) : Settings :=
  { s with mAllowCloudServiceOnly := allowCloudServiceOnly }

/-- Modelled from the spec: `std::exception_ptr`, the opaque error handle
delivered to failure callbacks; represented by an abstract address. -/
abbrev ExceptionPtr := Nat

/-- Modelled from the spec: `std::shared_ptr<void>`, the opaque client
context pointer; an abstract address, `none` standing for a null pointer. -/
abbrev VoidPtr := Option Nat

/-- Modelled from the spec: `std::shared_ptr<TemplateDescriptor>` (the
`TemplateDescriptor` type is forward-referenced, not defined in the supplied
source); an abstract address. -/
abbrev TemplateDescriptorPtr := Nat

/-- Modelled from the spec: `std::shared_ptr<DelegationLicense>` (the
`DelegationLicense` type is forward-referenced, not defined in the supplied
source); an abstract address. -/
abbrev DelegationLicensePtr := Nat

/-- Embedding of the default body of `Observer::OnGetTemplatesSuccess`
(header lines 73-75): `{ UNUSED(templateDescriptors); UNUSED(context); }` —
it returns normally and leaves the ambient state `world` untouched. -/
def Observer.OnGetTemplatesSuccess {σ : Type}
    (templateDescriptors : List TemplateDescriptorPtr) (context : VoidPtr)
    (world : σ) : σ :=
  world

/-- Embedding of the default body of `Observer::OnGetTemplatesFailure`
(header lines 87-89): `{ UNUSED(error); UNUSED(context); }`. -/
def Observer.OnGetTemplatesFailure {σ : Type}
    (error : ExceptionPtr) (context : VoidPtr) (world : σ) : σ :=
  world

/-- Embedding of the default body of `Observer::OnGetRightsForLabelIdSuccess`
(header lines 101-103): `{ UNUSED(rights); UNUSED(context); }`. -/
def Observer.OnGetRightsForLabelIdSuccess {σ : Type}
    (rights : List String) (context : VoidPtr) (world : σ) : σ :=
  world

/-- Embedding of the default body of `Observer::OnGetRightsForLabelIdFailure`
(header lines 115-117): `{ UNUSED(error); UNUSED(context); }`. -/
def Observer.OnGetRightsForLabelIdFailure {σ : Type}
    (error : ExceptionPtr) (context : VoidPtr) (world : σ) : σ :=
  world

/-- Embedding of the default body of `Observer::OnLoadUserCertSuccess`
(header lines 128-129): `{ UNUSED(context); }`. -/
def Observer.OnLoadUserCertSuccess {σ : Type} (context : VoidPtr) (world : σ) : σ :=
  world

/-- Embedding of the default body of `Observer::OnLoadUserCertFailure`
(header lines 141-143): `{ UNUSED(error); UNUSED(context); }`. -/
def Observer.OnLoadUserCertFailure {σ : Type}
    (error : ExceptionPtr) (context : VoidPtr) (world : σ) : σ :=
  world

/-- Embedding of the default body of
`Observer::OnRegisterContentForTrackingAndRevocationSuccess`
(header lines 154-155): `{ UNUSED(context); }`. -/
def Observer.OnRegisterContentForTrackingAndRevocationSuccess {σ : Type}
    (context : VoidPtr) (world : σ) : σ :=
  world

/-- Embedding of the default body of
`Observer::OnRegisterContentForTrackingAndRevocationFailure`
(header lines 167-169): `{ UNUSED(error); UNUSED(context); }`. -/
def Observer.OnRegisterContentForTrackingAndRevocationFailure {σ : Type}
    (error : ExceptionPtr) (context : VoidPtr) (world : σ) : σ :=
  world

/-- Embedding of the default body of `Observer::OnRevokeContentSuccess`
(header lines 180-181): `{ UNUSED(context); }`. -/
def Observer.OnRevokeContentSuccess {σ : Type} (context : VoidPtr) (world : σ) : σ :=
  world

/-- Embedding of the default body of `Observer::OnRevokeContentFailure`
(header lines 193-195): `{ UNUSED(error); UNUSED(context); }`. -/
def Observer.OnRevokeContentFailure {σ : Type}
    (error : ExceptionPtr) (context : VoidPtr) (world : σ) : σ :=
  world

/-- Embedding of the default body of `Observer::OnCreateDelegatedLicensesSuccess`
(header lines 206-208): `{ UNUSED(delegatedLicenses); UNUSED(context); }`. -/
def Observer.OnCreateDelegatedLicensesSuccess {σ : Type}
    (delegatedLicenses : List DelegationLicensePtr) (context : VoidPtr)
    (world : σ) : σ :=
  world

/-- Embedding of the default body of `Observer::OnCreateDelegatedLicensesFailure`
(header lines 220-222): `{ UNUSED(error); UNUSED(context); }`. -/
def Observer.OnCreateDelegatedLicensesFailure {σ : Type}
    (error : ExceptionPtr) (context : VoidPtr) (world : σ) : σ :=
  world

/-- Modelled from the spec: the single completion notification an
asynchronous `ProtectionEngine` call delivers to its observer — either the
success callback with the operation's result, or the failure callback with
the opaque error handle; each carries the client context. -/
inductive ObserverCallbackInvocation (ρ : Type) where
  | onSuccess (result : ρ) (context : VoidPtr) : ObserverCallbackInvocation ρ
  | onFailure (error : ExceptionPtr) (context : VoidPtr) : ObserverCallbackInvocation ρ
deriving DecidableEq

/-- The context carried by a callback invocation. -/
def ObserverCallbackInvocation.context {ρ : Type} :
    ObserverCallbackInvocation ρ → VoidPtr
  | ObserverCallbackInvocation.onSuccess _ c => c
  | ObserverCallbackInvocation.onFailure _ c => c

/-- Whether the invocation is of the success callback. -/
def ObserverCallbackInvocation.isSuccessCall {ρ : Type} :
    ObserverCallbackInvocation ρ → Bool
  | ObserverCallbackInvocation.onSuccess _ _ => true
  | ObserverCallbackInvocation.onFailure _ _ => false

/-- Modelled from the spec: the asynchronous completion dispatch (absent
from the supplied source, which declares the async methods pure virtual).
The spec's contract: the same opaque context passed to the originating call
is forwarded as-is to the observer's success or failure callback; a failed
operation is reported through the failure callback with the error handle. -/
def dispatchToObserver {ρ : Type} (outcome : Except ExceptionPtr ρ)
    (context : VoidPtr) : ObserverCallbackInvocation ρ :=
  match outcome with
  | Except.ok result => ObserverCallbackInvocation.onSuccess result context
  | Except.error e => ObserverCallbackInvocation.onFailure e context

/-- Modelled from the spec: completion dispatch of
`ProtectionEngine::GetTemplatesAsync` (pure virtual in the header); the
result delivered on success is the list of template descriptors. -/
def GetTemplatesAsyncDispatch (outcome : Except ExceptionPtr (List TemplateDescriptorPtr))
    (context : VoidPtr) : ObserverCallbackInvocation (List TemplateDescriptorPtr) :=
  dispatchToObserver outcome context

/-- Modelled from the spec: completion dispatch of
`ProtectionEngine::GetRightsForLabelIdAsync` (pure virtual in the header);
the result delivered on success is the list of rights. -/
def GetRightsForLabelIdAsyncDispatch (outcome : Except ExceptionPtr (List String))
    (context : VoidPtr) : ObserverCallbackInvocation (List String) :=
  dispatchToObserver outcome context

/-- Modelled from the spec: completion dispatch of
`ProtectionEngine::LoadUserCertAsync` (pure virtual in the header); the
success callback carries no result. -/
def LoadUserCertAsyncDispatch (outcome : Except ExceptionPtr Unit)
    (context : VoidPtr) : ObserverCallbackInvocation Unit :=
  dispatchToObserver outcome context

/-- Modelled from the spec: completion dispatch of
`ProtectionEngine::RegisterContentForTrackingAndRevocationAsync` (pure
virtual in the header); the success callback carries no result. -/
def RegisterContentForTrackingAndRevocationAsyncDispatch
    (outcome : Except ExceptionPtr Unit) (context : VoidPtr) :
    ObserverCallbackInvocation Unit :=
  dispatchToObserver outcome context

/-- Modelled from the spec: completion dispatch of
`ProtectionEngine::RevokeContentAsync` (pure virtual in the header); the
success callback carries no result. -/
def RevokeContentAsyncDispatch (outcome : Except ExceptionPtr Unit)
    (context : VoidPtr) : ObserverCallbackInvocation Unit :=
  dispatchToObserver outcome context

/-- Modelled from the spec: completion dispatch of
`ProtectionEngine::CreateDelegationLicensesAsync` (pure virtual in the
header); the result delivered on success is the list of delegation
licenses. -/
def CreateDelegationLicensesAsyncDispatch
    (outcome : Except ExceptionPtr (List DelegationLicensePtr)) (context : VoidPtr) :
    ObserverCallbackInvocation (List DelegationLicensePtr) :=
  dispatchToObserver outcome context

/-- Modelled from the spec: how a synchronous `ProtectionEngine` call
completes — by returning a value or by throwing an exception. -/
inductive SyncCompletion (ρ : Type) where
  | returns (value : ρ) : SyncCompletion ρ
  | throws (error : ExceptionPtr) : SyncCompletion ρ
deriving DecidableEq

/-- Whether the synchronous call returned normally. -/
def SyncCompletion.isReturn {ρ : Type} : SyncCompletion ρ → Bool
  | SyncCompletion.returns _ => true
  | SyncCompletion.throws _ => false

/-- Modelled from the spec: a synchronous variant surfaces the operation's
outcome directly — the result is returned, a failure is thrown. -/
def syncComplete {ρ : Type} (outcome : Except ExceptionPtr ρ) : SyncCompletion ρ :=
  match outcome with
  | Except.ok v => SyncCompletion.returns v
  | Except.error e => SyncCompletion.throws e

/-- The classes declared in `protection_engine.h`: `ProtectionEngine` and its
nested `Observer` and `Settings`. -/
inductive CppClass where
  | ProtectionEngineClass : CppClass
  | ObserverClass : CppClass
  | SettingsClass : CppClass
deriving DecidableEq

/-- The kinds of member functions declared in the header. -/
inductive MethodKind where
  | operation : MethodKind
  | callback : MethodKind
  | accessor : MethodKind
  | ctor : MethodKind
  | dtor : MethodKind
deriving DecidableEq

/-- A member-function declaration of the header: its enclosing class, name,
kind, whether it is declared pure virtual (`= 0`), and whether it has an
inline body in the header. -/
structure MethodDecl where
  owner : CppClass
  mname : String
  kind : MethodKind
  pureVirtual : Bool
  hasBody : Bool
deriving DecidableEq

/-- Every member-function declaration of `protection_engine.h`, in source
order: the twelve `Observer` default callbacks (virtual with inline no-op
bodies, lines 73-222), `Observer`'s destructor and protected constructor
(inline bodies, lines 225-227), the two `Settings` constructor overloads and
twenty-one accessors (inline bodies, lines 247-446), the eighteen pure
virtual `ProtectionEngine` operations (`= 0`, no body, lines 469-694), and
`ProtectionEngine`'s destructor and protected constructor (inline bodies,
lines 697-699). -/
def headerMethodDecls : List MethodDecl := [
  ⟨CppClass.ObserverClass, "OnGetTemplatesSuccess", MethodKind.callback, false, true⟩,
  ⟨CppClass.ObserverClass, "OnGetTemplatesFailure", MethodKind.callback, false, true⟩,
  ⟨CppClass.ObserverClass, "OnGetRightsForLabelIdSuccess", MethodKind.callback, false, true⟩,
  ⟨CppClass.ObserverClass, "OnGetRightsForLabelIdFailure", MethodKind.callback, false, true⟩,
  ⟨CppClass.ObserverClass, "OnLoadUserCertSuccess", MethodKind.callback, false, true⟩,
  ⟨CppClass.ObserverClass, "OnLoadUserCertFailure", MethodKind.callback, false, true⟩,
  ⟨CppClass.ObserverClass, "OnRegisterContentForTrackingAndRevocationSuccess", MethodKind.callback, false, true⟩,
  ⟨CppClass.ObserverClass, "OnRegisterContentForTrackingAndRevocationFailure", MethodKind.callback, false, true⟩,
  ⟨CppClass.ObserverClass, "OnRevokeContentSuccess", MethodKind.callback, false, true⟩,
  ⟨CppClass.ObserverClass, "OnRevokeContentFailure", MethodKind.callback, false, true⟩,
  ⟨CppClass.ObserverClass, "OnCreateDelegatedLicensesSuccess", MethodKind.callback, false, true⟩,
  ⟨CppClass.ObserverClass, "OnCreateDelegatedLicensesFailure", MethodKind.callback, false, true⟩,
  ⟨CppClass.ObserverClass, "~Observer", MethodKind.dtor, false, true⟩,
  ⟨CppClass.ObserverClass, "Observer", MethodKind.ctor, false, true⟩,
  ⟨CppClass.SettingsClass, "Settings", MethodKind.ctor, false, true⟩,
  ⟨CppClass.SettingsClass, "Settings", MethodKind.ctor, false, true⟩,
  ⟨CppClass.SettingsClass, "GetEngineId", MethodKind.accessor, false, true⟩,
  ⟨CppClass.SettingsClass, "SetEngineId", MethodKind.accessor, false, true⟩,
  ⟨CppClass.SettingsClass, "GetIdentity", MethodKind.accessor, false, true⟩,
  ⟨CppClass.SettingsClass, "SetIdentity", MethodKind.accessor, false, true⟩,
  ⟨CppClass.SettingsClass, "GetClientData", MethodKind.accessor, false, true⟩,
  ⟨CppClass.SettingsClass, "SetClientData", MethodKind.accessor, false, true⟩,
  ⟨CppClass.SettingsClass, "GetLocale", MethodKind.accessor, false, true⟩,
  ⟨CppClass.SettingsClass, "SetCustomSettings", MethodKind.accessor, false, true⟩,
  ⟨CppClass.SettingsClass, "GetCustomSettings", MethodKind.accessor, false, true⟩,
  ⟨CppClass.SettingsClass, "SetSessionId", MethodKind.accessor, false, true⟩,
  ⟨CppClass.SettingsClass, "GetSessionId", MethodKind.accessor, false, true⟩,
  ⟨CppClass.SettingsClass, "SetCloud", MethodKind.accessor, false, true⟩,
  ⟨CppClass.SettingsClass, "GetCloud", MethodKind.accessor, false, true⟩,
  ⟨CppClass.SettingsClass, "SetCloudEndpointBaseUrl", MethodKind.accessor, false, true⟩,
  ⟨CppClass.SettingsClass, "GetCloudEndpointBaseUrl", MethodKind.accessor, false, true⟩,
  ⟨CppClass.SettingsClass, "SetAuthDelegate", MethodKind.accessor, false, true⟩,
  ⟨CppClass.SettingsClass, "GetAuthDelegate", MethodKind.accessor, false, true⟩,
  ⟨CppClass.SettingsClass, "GetUnderlyingApplicationId", MethodKind.accessor, false, true⟩,
  ⟨CppClass.SettingsClass, "SetUnderlyingApplicationId", MethodKind.accessor, false, true⟩,
  ⟨CppClass.SettingsClass, "GetAllowCloudServiceOnly", MethodKind.accessor, false, true⟩,
  ⟨CppClass.SettingsClass, "SetAllowCloudServiceOnly", MethodKind.accessor, false, true⟩,
  ⟨CppClass.ProtectionEngineClass, "GetSettings", MethodKind.operation, true, false⟩,
  ⟨CppClass.ProtectionEngineClass, "GetTemplatesAsync", MethodKind.operation, true, false⟩,
  ⟨CppClass.ProtectionEngineClass, "GetTemplates", MethodKind.operation, true, false⟩,
  ⟨CppClass.ProtectionEngineClass, "IsFeatureSupported", MethodKind.operation, true, false⟩,
  ⟨CppClass.ProtectionEngineClass, "GetRightsForLabelIdAsync", MethodKind.operation, true, false⟩,
  ⟨CppClass.ProtectionEngineClass, "GetRightsForLabelId", MethodKind.operation, true, false⟩,
  ⟨CppClass.ProtectionEngineClass, "CreateProtectionHandlerForPublishingAsync", MethodKind.operation, true, false⟩,
  ⟨CppClass.ProtectionEngineClass, "CreateProtectionHandlerForPublishing", MethodKind.operation, true, false⟩,
  ⟨CppClass.ProtectionEngineClass, "CreateProtectionHandlerForConsumptionAsync", MethodKind.operation, true, false⟩,
  ⟨CppClass.ProtectionEngineClass, "CreateProtectionHandlerForConsumption", MethodKind.operation, true, false⟩,
  ⟨CppClass.ProtectionEngineClass, "LoadUserCert", MethodKind.operation, true, false⟩,
  ⟨CppClass.ProtectionEngineClass, "LoadUserCertAsync", MethodKind.operation, true, false⟩,
  ⟨CppClass.ProtectionEngineClass, "RegisterContentForTrackingAndRevocation", MethodKind.operation, true, false⟩,
  ⟨CppClass.ProtectionEngineClass, "RegisterContentForTrackingAndRevocationAsync", MethodKind.operation, true, false⟩,
  ⟨CppClass.ProtectionEngineClass, "RevokeContent", MethodKind.operation, true, false⟩,
  ⟨CppClass.ProtectionEngineClass, "RevokeContentAsync", MethodKind.operation, true, false⟩,
  ⟨CppClass.ProtectionEngineClass, "CreateDelegationLicenses", MethodKind.operation, true, false⟩,
  ⟨CppClass.ProtectionEngineClass, "CreateDelegationLicensesAsync", MethodKind.operation, true, false⟩,
  ⟨CppClass.ProtectionEngineClass, "~ProtectionEngine", MethodKind.dtor, false, true⟩,
  ⟨CppClass.ProtectionEngineClass, "ProtectionEngine", MethodKind.ctor, false, true⟩]

/-- Claim C1: for every `ProtectionEngine::Settings` object `s`, settable
field `X` (engine ID, identity, client data, custom settings, session ID,
cloud, cloud endpoint base URL, auth delegate, underlying application ID,
allow-cloud-service-only flag) and value `v`, immediately after `s.SetX(v)`
the getter `GetX` returns `v`. -/
theorem settings_set_get_roundtrip (s : Settings) (e : String) (i : Identity)
    (c : String) (cs : List (String × String)) (sid : String) (cl : Cloud)
    (url : String) (a : AuthDelegatePtr) (app : String) (b : Bool) :
    (s.SetEngineId e).GetEngineId = e ∧
    (s.SetIdentity i).GetIdentity = i ∧
    (s.SetClientData c).GetClientData = c ∧
    (s.SetCustomSettings cs).GetCustomSettings = cs ∧
    (s.SetSessionId sid).GetSessionId = sid ∧
    (s.SetCloud cl).GetCloud = cl ∧
    (s.SetCloudEndpointBaseUrl url).GetCloudEndpointBaseUrl = url ∧
    (s.SetAuthDelegate a).GetAuthDelegate = a ∧
    (s.SetUnderlyingApplicationId app).GetUnderlyingApplicationId = app ∧
    (s.SetAllowCloudServiceOnly b).GetAllowCloudServiceOnly = b :=
  ⟨rfl, rfl, rfl, rfl, rfl, rfl, rfl, rfl, rfl, rfl⟩

/-- Claim C2: the `Settings` constructor for a new engine stores the
identity, auth delegate, client data and locale it is given, and the
constructor for loading an existing engine stores the engine ID, auth
delegate, client data and locale it is given; the corresponding getters
return exactly those arguments. -/
theorem settings_ctor_stores_arguments (i : Identity) (a : AuthDelegatePtr)
    (c l e : String) :
    (Settings.mkWithIdentity i a c l).GetIdentity = i ∧
    (Settings.mkWithIdentity i a c l).GetAuthDelegate = a ∧
    (Settings.mkWithIdentity i a c l).GetClientData = c ∧
    (Settings.mkWithIdentity i a c l).GetLocale = l ∧
    (Settings.mkWithEngineId e a c l).GetEngineId = e ∧
    (Settings.mkWithEngineId e a c l).GetAuthDelegate = a ∧
    (Settings.mkWithEngineId e a c l).GetClientData = c ∧
    (Settings.mkWithEngineId e a c l).GetLocale = l :=
  ⟨rfl, rfl, rfl, rfl, rfl, rfl, rfl, rfl⟩

/-- The completion dispatch forwards the client context unchanged, whichever
callback it selects. -/
theorem dispatchToObserver_context {ρ : Type} (outcome : Except ExceptionPtr ρ)
    (ctx : VoidPtr) : (dispatchToObserver outcome ctx).context = ctx := by
  cases outcome <;> rfl

/-- Claim C3: for each asynchronous `ProtectionEngine` operation
(`GetTemplatesAsync`, `GetRightsForLabelIdAsync`, `LoadUserCertAsync`,
`RegisterContentForTrackingAndRevocationAsync`, `RevokeContentAsync`,
`CreateDelegationLicensesAsync`) and every context `ctx`, the context
delivered to the observer's success or failure callback is the same,
unchanged `ctx`, whatever the operation's outcome. -/
theorem async_context_forwarded_unchanged (ctx : VoidPtr)
    (o1 : Except ExceptionPtr (List TemplateDescriptorPtr))
    (o2 : Except ExceptionPtr (List String))
    (o3 o4 o5 : Except ExceptionPtr Unit)
    (o6 : Except ExceptionPtr (List DelegationLicensePtr)) :
    (GetTemplatesAsyncDispatch o1 ctx).context = ctx ∧
    (GetRightsForLabelIdAsyncDispatch o2 ctx).context = ctx ∧
    (LoadUserCertAsyncDispatch o3 ctx).context = ctx ∧
    (RegisterContentForTrackingAndRevocationAsyncDispatch o4 ctx).context = ctx ∧
    (RevokeContentAsyncDispatch o5 ctx).context = ctx ∧
    (CreateDelegationLicensesAsyncDispatch o6 ctx).context = ctx :=
  ⟨dispatchToObserver_context o1 ctx, dispatchToObserver_context o2 ctx,
   dispatchToObserver_context o3 ctx, dispatchToObserver_context o4 ctx,
   dispatchToObserver_context o5 ctx, dispatchToObserver_context o6 ctx⟩

/-- Claim C4: each `ProtectionEngine::Settings` setter changes only its own
field — after `s.SetX(v)`, every getter other than `GetX` returns the same
value it returned before the call. -/
theorem settings_setter_frame (s : Settings) (e : String) (i : Identity)
    (c : String) (cs : List (String × String)) (sid : String) (cl : Cloud)
    (url : String) (a : AuthDelegatePtr) (app : String) (b : Bool) :
    (s.SetEngineId e).GetIdentity = s.GetIdentity ∧
    (s.SetEngineId e).GetCloud = s.GetCloud ∧
    (s.SetEngineId e).GetAuthDelegate = s.GetAuthDelegate ∧
    (s.SetEngineId e).GetClientData = s.GetClientData ∧
    (s.SetEngineId e).GetCustomSettings = s.GetCustomSettings ∧
    (s.SetEngineId e).GetCloudEndpointBaseUrl = s.GetCloudEndpointBaseUrl ∧
    (s.SetEngineId e).GetLocale = s.GetLocale ∧
    (s.SetEngineId e).GetSessionId = s.GetSessionId ∧
    (s.SetEngineId e).GetUnderlyingApplicationId = s.GetUnderlyingApplicationId ∧
    (s.SetEngineId e).GetAllowCloudServiceOnly = s.GetAllowCloudServiceOnly ∧
    (s.SetIdentity i).GetEngineId = s.GetEngineId ∧
    (s.SetIdentity i).GetCloud = s.GetCloud ∧
    (s.SetIdentity i).GetAuthDelegate = s.GetAuthDelegate ∧
    (s.SetIdentity i).GetClientData = s.GetClientData ∧
    (s.SetIdentity i).GetCustomSettings = s.GetCustomSettings ∧
    (s.SetIdentity i).GetCloudEndpointBaseUrl = s.GetCloudEndpointBaseUrl ∧
    (s.SetIdentity i).GetLocale = s.GetLocale ∧
    (s.SetIdentity i).GetSessionId = s.GetSessionId ∧
    (s.SetIdentity i).GetUnderlyingApplicationId = s.GetUnderlyingApplicationId ∧
    (s.SetIdentity i).GetAllowCloudServiceOnly = s.GetAllowCloudServiceOnly ∧
    (s.SetClientData c).GetEngineId = s.GetEngineId ∧
    (s.SetClientData c).GetIdentity = s.GetIdentity ∧
    (s.SetClientData c).GetCloud = s.GetCloud ∧
    (s.SetClientData c).GetAuthDelegate = s.GetAuthDelegate ∧
    (s.SetClientData c).GetCustomSettings = s.GetCustomSettings ∧
    (s.SetClientData c).GetCloudEndpointBaseUrl = s.GetCloudEndpointBaseUrl ∧
    (s.SetClientData c).GetLocale = s.GetLocale ∧
    (s.SetClientData c).GetSessionId = s.GetSessionId ∧
    (s.SetClientData c).GetUnderlyingApplicationId = s.GetUnderlyingApplicationId ∧
    (s.SetClientData c).GetAllowCloudServiceOnly = s.GetAllowCloudServiceOnly ∧
    (s.SetCustomSettings cs).GetEngineId = s.GetEngineId ∧
    (s.SetCustomSettings cs).GetIdentity = s.GetIdentity ∧
    (s.SetCustomSettings cs).GetCloud = s.GetCloud ∧
    (s.SetCustomSettings cs).GetAuthDelegate = s.GetAuthDelegate ∧
    (s.SetCustomSettings cs).GetClientData = s.GetClientData ∧
    (s.SetCustomSettings cs).GetCloudEndpointBaseUrl = s.GetCloudEndpointBaseUrl ∧
    (s.SetCustomSettings cs).GetLocale = s.GetLocale ∧
    (s.SetCustomSettings cs).GetSessionId = s.GetSessionId ∧
    (s.SetCustomSettings cs).GetUnderlyingApplicationId = s.GetUnderlyingApplicationId ∧
    (s.SetCustomSettings cs).GetAllowCloudServiceOnly = s.GetAllowCloudServiceOnly ∧
    (s.SetSessionId sid).GetEngineId = s.GetEngineId ∧
    (s.SetSessionId sid).GetIdentity = s.GetIdentity ∧
    (s.SetSessionId sid).GetCloud = s.GetCloud ∧
    (s.SetSessionId sid).GetAuthDelegate = s.GetAuthDelegate ∧
    (s.SetSessionId sid).GetClientData = s.GetClientData ∧
    (s.SetSessionId sid).GetCustomSettings = s.GetCustomSettings ∧
    (s.SetSessionId sid).GetCloudEndpointBaseUrl = s.GetCloudEndpointBaseUrl ∧
    (s.SetSessionId sid).GetLocale = s.GetLocale ∧
    (s.SetSessionId sid).GetUnderlyingApplicationId = s.GetUnderlyingApplicationId ∧
    (s.SetSessionId sid).GetAllowCloudServiceOnly = s.GetAllowCloudServiceOnly ∧
    (s.SetCloud cl).GetEngineId = s.GetEngineId ∧
    (s.SetCloud cl).GetIdentity = s.GetIdentity ∧
    (s.SetCloud cl).GetAuthDelegate = s.GetAuthDelegate ∧
    (s.SetCloud cl).GetClientData = s.GetClientData ∧
    (s.SetCloud cl).GetCustomSettings = s.GetCustomSettings ∧
    (s.SetCloud cl).GetCloudEndpointBaseUrl = s.GetCloudEndpointBaseUrl ∧
    (s.SetCloud cl).GetLocale = s.GetLocale ∧
    (s.SetCloud cl).GetSessionId = s.GetSessionId ∧
    (s.SetCloud cl).GetUnderlyingApplicationId = s.GetUnderlyingApplicationId ∧
    (s.SetCloud cl).GetAllowCloudServiceOnly = s.GetAllowCloudServiceOnly ∧
    (s.SetCloudEndpointBaseUrl url).GetEngineId = s.GetEngineId ∧
    (s.SetCloudEndpointBaseUrl url).GetIdentity = s.GetIdentity ∧
    (s.SetCloudEndpointBaseUrl url).GetCloud = s.GetCloud ∧
    (s.SetCloudEndpointBaseUrl url).GetAuthDelegate = s.GetAuthDelegate ∧
    (s.SetCloudEndpointBaseUrl url).GetClientData = s.GetClientData ∧
    (s.SetCloudEndpointBaseUrl url).GetCustomSettings = s.GetCustomSettings ∧
    (s.SetCloudEndpointBaseUrl url).GetLocale = s.GetLocale ∧
    (s.SetCloudEndpointBaseUrl url).GetSessionId = s.GetSessionId ∧
    (s.SetCloudEndpointBaseUrl url).GetUnderlyingApplicationId = s.GetUnderlyingApplicationId ∧
    (s.SetCloudEndpointBaseUrl url).GetAllowCloudServiceOnly = s.GetAllowCloudServiceOnly ∧
    (s.SetAuthDelegate a).GetEngineId = s.GetEngineId ∧
    (s.SetAuthDelegate a).GetIdentity = s.GetIdentity ∧
    (s.SetAuthDelegate a).GetCloud = s.GetCloud ∧
    (s.SetAuthDelegate a).GetClientData = s.GetClientData ∧
    (s.SetAuthDelegate a).GetCustomSettings = s.GetCustomSettings ∧
    (s.SetAuthDelegate a).GetCloudEndpointBaseUrl = s.GetCloudEndpointBaseUrl ∧
    (s.SetAuthDelegate a).GetLocale = s.GetLocale ∧
    (s.SetAuthDelegate a).GetSessionId = s.GetSessionId ∧
    (s.SetAuthDelegate a).GetUnderlyingApplicationId = s.GetUnderlyingApplicationId ∧
    (s.SetAuthDelegate a).GetAllowCloudServiceOnly = s.GetAllowCloudServiceOnly ∧
    (s.SetUnderlyingApplicationId app).GetEngineId = s.GetEngineId ∧
    (s.SetUnderlyingApplicationId app).GetIdentity = s.GetIdentity ∧
    (s.SetUnderlyingApplicationId app).GetCloud = s.GetCloud ∧
    (s.SetUnderlyingApplicationId app).GetAuthDelegate = s.GetAuthDelegate ∧
    (s.SetUnderlyingApplicationId app).GetClientData = s.GetClientData ∧
    (s.SetUnderlyingApplicationId app).GetCustomSettings = s.GetCustomSettings ∧
    (s.SetUnderlyingApplicationId app).GetCloudEndpointBaseUrl = s.GetCloudEndpointBaseUrl ∧
    (s.SetUnderlyingApplicationId app).GetLocale = s.GetLocale ∧
    (s.SetUnderlyingApplicationId app).GetSessionId = s.GetSessionId ∧
    (s.SetUnderlyingApplicationId app).GetAllowCloudServiceOnly = s.GetAllowCloudServiceOnly ∧
    (s.SetAllowCloudServiceOnly b).GetEngineId = s.GetEngineId ∧
    (s.SetAllowCloudServiceOnly b).GetIdentity = s.GetIdentity ∧
    (s.SetAllowCloudServiceOnly b).GetCloud = s.GetCloud ∧
    (s.SetAllowCloudServiceOnly b).GetAuthDelegate = s.GetAuthDelegate ∧
    (s.SetAllowCloudServiceOnly b).GetClientData = s.GetClientData ∧
    (s.SetAllowCloudServiceOnly b).GetCustomSettings = s.GetCustomSettings ∧
    (s.SetAllowCloudServiceOnly b).GetCloudEndpointBaseUrl = s.GetCloudEndpointBaseUrl ∧
    (s.SetAllowCloudServiceOnly b).GetLocale = s.GetLocale ∧
    (s.SetAllowCloudServiceOnly b).GetSessionId = s.GetSessionId ∧
    (s.SetAllowCloudServiceOnly b).GetUnderlyingApplicationId = s.GetUnderlyingApplicationId :=
  ⟨rfl, rfl, rfl, rfl, rfl, rfl, rfl, rfl, rfl, rfl, rfl, rfl, rfl, rfl, rfl, rfl, rfl, rfl, rfl, rfl, rfl, rfl, rfl, rfl, rfl, rfl, rfl, rfl, rfl, rfl, rfl, rfl, rfl, rfl, rfl, rfl, rfl, rfl, rfl, rfl, rfl, rfl, rfl, rfl, rfl, rfl, rfl, rfl, rfl, rfl, rfl, rfl, rfl, rfl, rfl, rfl, rfl, rfl, rfl, rfl, rfl, rfl, rfl, rfl, rfl, rfl, rfl, rfl, rfl, rfl, rfl, rfl, rfl, rfl, rfl, rfl, rfl, rfl, rfl, rfl, rfl, rfl, rfl, rfl, rfl, rfl, rfl, rfl, rfl, rfl, rfl, rfl, rfl, rfl, rfl, rfl, rfl, rfl, rfl, rfl⟩

/-- Claim C5: for each asynchronous `ProtectionEngine` operation, a failure
is signaled by invoking the observer's failure callback with the opaque
error handle and the caller's context — never the success callback; a
synchronous variant signals failure by throwing. -/
theorem async_failure_signaling (err : ExceptionPtr) (ctx : VoidPtr) (ρ : Type) :
    GetTemplatesAsyncDispatch (Except.error err) ctx
      = ObserverCallbackInvocation.onFailure err ctx ∧
    GetRightsForLabelIdAsyncDispatch (Except.error err) ctx
      = ObserverCallbackInvocation.onFailure err ctx ∧
    LoadUserCertAsyncDispatch (Except.error err) ctx
      = ObserverCallbackInvocation.onFailure err ctx ∧
    RegisterContentForTrackingAndRevocationAsyncDispatch (Except.error err) ctx
      = ObserverCallbackInvocation.onFailure err ctx ∧
    RevokeContentAsyncDispatch (Except.error err) ctx
      = ObserverCallbackInvocation.onFailure err ctx ∧
    CreateDelegationLicensesAsyncDispatch (Except.error err) ctx
      = ObserverCallbackInvocation.onFailure err ctx ∧
    (GetTemplatesAsyncDispatch (Except.error err) ctx).isSuccessCall = false ∧
    (GetRightsForLabelIdAsyncDispatch (Except.error err) ctx).isSuccessCall = false ∧
    (LoadUserCertAsyncDispatch (Except.error err) ctx).isSuccessCall = false ∧
    (RegisterContentForTrackingAndRevocationAsyncDispatch (Except.error err) ctx).isSuccessCall = false ∧
    (RevokeContentAsyncDispatch (Except.error err) ctx).isSuccessCall = false ∧
    (CreateDelegationLicensesAsyncDispatch (Except.error err) ctx).isSuccessCall = false ∧
    (syncComplete (Except.error err) : SyncCompletion ρ) = SyncCompletion.throws err ∧
    (syncComplete (Except.error err) : SyncCompletion ρ).isReturn = false :=
  ⟨rfl, rfl, rfl, rfl, rfl, rfl, rfl, rfl, rfl, rfl, rfl, rfl, rfl, rfl⟩

/-- Claim C6 counterexample: not every method declared in the header is pure
virtual with no body — `Settings::GetEngineId` is declared among the
header's methods as non-virtual with an inline body. -/
theorem header_method_with_body_exists :
    (⟨CppClass.SettingsClass, "GetEngineId", MethodKind.accessor, false, true⟩ : MethodDecl)
      ∈ headerMethodDecls ∧
    ¬ (∀ m ∈ headerMethodDecls, m.pureVirtual = true ∧ m.hasBody = false) := by
  decide

/-- Claim C6 (amended): every operation method declared on the
`ProtectionEngine` class itself is pure virtual (`= 0`) with no body; the
inline bodies in the header belong only to the nested `Observer` and
`Settings` classes and to constructors and destructors. -/
theorem protection_engine_operations_pure_virtual :
    ∀ m ∈ headerMethodDecls,
      m.owner = CppClass.ProtectionEngineClass → m.kind = MethodKind.operation →
        m.pureVirtual = true ∧ m.hasBody = false := by
  decide

/-- Witness for the amended claim C6 at `GetTemplatesAsync`. -/
theorem protection_engine_operations_pure_virtual_witness :
    (⟨CppClass.ProtectionEngineClass, "GetTemplatesAsync", MethodKind.operation,
        true, false⟩ : MethodDecl).pureVirtual = true ∧
    (⟨CppClass.ProtectionEngineClass, "GetTemplatesAsync", MethodKind.operation,
        true, false⟩ : MethodDecl).hasBody = false :=
  protection_engine_operations_pure_virtual
    ⟨CppClass.ProtectionEngineClass, "GetTemplatesAsync", MethodKind.operation, true, false⟩
    (by decide) rfl rfl

/-- Claim C7 counterexample: a testable round-trip IS statable and provable
over the code in the header — setting the session ID on a concrete
`Settings` object and reading it back yields the value set, by computation
of the embedded accessor bodies. -/
theorem header_roundtrip_statable :
    ((Settings.mkWithIdentityDefaultLocale {} none "client-data").SetSessionId
        "session-1").GetSessionId = "session-1" :=
  rfl

/-- Claim C7 (amended): no testable property can be derived for the
`ProtectionEngine` operation methods themselves, which are pure virtual
with no bodies in the header; the `Settings` accessors, however, do define
computable behavior with a setter/getter round-trip invariant. -/
theorem header_testable_properties :
    (∀ m ∈ headerMethodDecls, m.kind = MethodKind.operation → m.hasBody = false) ∧
    (∀ (s : Settings) (v : String), (s.SetClientData v).GetClientData = v) :=
  ⟨by decide, fun _ _ => rfl⟩

/-- Witness for the amended claim C7 at a concrete `Settings` object. -/
theorem header_testable_properties_witness :
    ((Settings.mkWithEngineIdDefaultLocale "engine-1" none "cd").SetClientData
        "cd2").GetClientData = "cd2" :=
  header_testable_properties.2
    ((Settings.mkWithEngineIdDefaultLocale "engine-1" none "cd")) "cd2"

/-- Claim C8: a freshly constructed `Settings` object (from either
constructor) has `GetAllowCloudServiceOnly() = false` and
`GetCloud() = Cloud::Unknown`; with the locale argument omitted,
`GetLocale()` returns the default `"en-US"`. -/
theorem settings_ctor_defaults (i : Identity) (a : AuthDelegatePtr)
    (c l e : String) :
    (Settings.mkWithIdentity i a c l).GetAllowCloudServiceOnly = false ∧
    (Settings.mkWithIdentity i a c l).GetCloud = Cloud.Unknown ∧
    (Settings.mkWithEngineId e a c l).GetAllowCloudServiceOnly = false ∧
    (Settings.mkWithEngineId e a c l).GetCloud = Cloud.Unknown ∧
    (Settings.mkWithIdentityDefaultLocale i a c).GetLocale = "en-US" ∧
    (Settings.mkWithEngineIdDefaultLocale e a c).GetLocale = "en-US" :=
  ⟨rfl, rfl, rfl, rfl, rfl, rfl⟩

/-- Claim C9: each `Settings` constructor leaves the field the other one
sets at its default — after the identity constructor `GetEngineId()` is the
empty string, and after the engine-ID constructor `GetIdentity()` is a
default-constructed `Identity`. -/
theorem settings_ctor_unset_field_default (i : Identity) (a : AuthDelegatePtr)
    (c l e : String) :
    (Settings.mkWithIdentity i a c l).GetEngineId = "" ∧
    (Settings.mkWithEngineId e a c l).GetIdentity = (default : Identity) :=
  ⟨rfl, rfl⟩

/-- Claim C10: every default `Observer` callback implementation is a no-op:
for all arguments it returns normally and leaves the ambient state (and, the
model's values being immutable, its arguments) unchanged. -/
theorem observer_default_callbacks_noop {σ : Type} (world : σ)
    (tds : List TemplateDescriptorPtr) (rights : List String)
    (lics : List DelegationLicensePtr) (err : ExceptionPtr) (ctx : VoidPtr) :
    Observer.OnGetTemplatesSuccess tds ctx world = world ∧
    Observer.OnGetTemplatesFailure err ctx world = world ∧
    Observer.OnGetRightsForLabelIdSuccess rights ctx world = world ∧
    Observer.OnGetRightsForLabelIdFailure err ctx world = world ∧
    Observer.OnLoadUserCertSuccess ctx world = world ∧
    Observer.OnLoadUserCertFailure err ctx world = world ∧
    Observer.OnRegisterContentForTrackingAndRevocationSuccess ctx world = world ∧
    Observer.OnRegisterContentForTrackingAndRevocationFailure err ctx world = world ∧
    Observer.OnRevokeContentSuccess ctx world = world ∧
    Observer.OnRevokeContentFailure err ctx world = world ∧
    Observer.OnCreateDelegatedLicensesSuccess lics ctx world = world ∧
    Observer.OnCreateDelegatedLicensesFailure err ctx world = world :=
  ⟨rfl, rfl, rfl, rfl, rfl, rfl, rfl, rfl, rfl, rfl, rfl, rfl⟩
